import Mathlib

/-!
Shallow embedding of the MediaDownloader repository (two Python source files:
`audiomack_downloader.py` and `spotify_utils.py`) together with theorems that
settle the specification claims.  Network and filesystem effects are modelled
by explicit oracle inputs (the fetched response, the streamed chunk list, the
clock readings); Python values produced by `json.loads` are modelled by the
`JsonValue` type, with Python `None` identified with JSON `null` (which is
exactly what `json.loads` produces for `null`, and what the source uses for
unset record fields).  JSON numbers are modelled as exact rationals; Python
float arithmetic is modelled as exact rational arithmetic.
-/

namespace MediaDL

/-- Model of a Python value produced by `json.loads`, with `null` also playing
the role of Python `None`.  Objects keep their key/value pairs in textual
order; lookups take the last binding of a key, matching the order in which
`json.loads` fills a Python dict. -/
inductive JsonValue where
  | null : JsonValue
  | bool (b : Bool) : JsonValue
  | num (q : ℚ) : JsonValue
  | str (s : String) : JsonValue
  | arr (elems : List JsonValue) : JsonValue
  | obj (fields : List (String × JsonValue)) : JsonValue

mutual

/-- Structural equality of `JsonValue`, the model of Python `==` used by the
membership test of the dedup pass (url not in the seen set). -/
def jeq : JsonValue → JsonValue → Bool
  | .null, .null => true
  | .bool a, .bool b => a == b
  | .num a, .num b => decide (a = b)
  | .str a, .str b => a == b
  | .arr xs, .arr ys => jeqL xs ys
  | .obj xs, .obj ys => jeqKV xs ys
  | _, _ => false

/-- Elementwise `jeq` on lists. -/
def jeqL : List JsonValue → List JsonValue → Bool
  | [], [] => true
  | x :: xs, y :: ys => jeq x y && jeqL xs ys
  | _, _ => false

/-- Elementwise `jeq` on key/value lists. -/
def jeqKV : List (String × JsonValue) → List (String × JsonValue) → Bool
  | [], [] => true
  | (k1, v1) :: xs, (k2, v2) :: ys => k1 == k2 && jeq v1 v2 && jeqKV xs ys
  | _, _ => false

end

/-- Python truthiness of a `JsonValue` (`if v:` in the source). -/
def pyTruthy : JsonValue → Bool
  | .null => false
  | .bool b => b
  | .num q => !(decide (q = 0))
  | .str s => !(s == "")
  | .arr l => !l.isEmpty
  | .obj kvs => !kvs.isEmpty

/-- Python `a or b` on values: the first operand if truthy, else the second. -/
def pyOr (a b : JsonValue) : JsonValue := if pyTruthy a then a else b

/-- Lookup in an association list with Python dict semantics: when a key is
bound several times (duplicate JSON keys) the last binding wins. -/
def jLookup (k : String) : List (String × JsonValue) → Option JsonValue
  | [] => none
  | (k2, v) :: rest =>
    match jLookup k rest with
    | some r => some r
    | none => if k2 = k then some v else none

/-- Model of `d.get(k, default)` for a value already known to be a dict.  The
callers only apply it after establishing the dict case (a `.get` on a
non-dict raises, which the embedding models separately), so the catch-all
branch is unreachable in context. -/
def jGetD (v : JsonValue) (k : String) (d : JsonValue) : JsonValue :=
  match v with
  | .obj kvs => (jLookup k kvs).getD d
  | _ => d

/-- Model of `d.get(k)` (default `None`). -/
def jGet (v : JsonValue) (k : String) : JsonValue := jGetD v k .null

/-- Whether a value is a Python dict (`isinstance(v, dict)`). -/
def isObj : JsonValue → Bool
  | .obj _ => true
  | _ => false

/-- A raised Python exception.  `raised msg` is an explicit
`raise Exception(msg)` from the source; the remaining constructors are
runtime errors the interpreter raises on its own (attribute access on a value
without the attribute, indexing an empty list, iterating or joining values of
the wrong type, subscripting a dict with a missing key, `int()` of a
non-numeric string).  For those, the model records only the exception class,
not the interpreter message text. -/
inductive PyError where
  | raised (msg : String)
  | attributeError
  | indexError
  | typeError
  | keyError
  | valueError
deriving DecidableEq

/-- Model of `str(e)` for a caught exception: the message for an explicit
`Exception`, and the class name for interpreter-raised errors (whose exact
interpreter text the model does not track). -/
def pyExcStr : PyError → String
  | .raised msg => msg
  | .attributeError => "AttributeError"
  | .indexError => "IndexError"
  | .typeError => "TypeError"
  | .keyError => "KeyError"
  | .valueError => "ValueError"

/-! ## Character and string helpers -/

/-- Python whitespace as used by `str.strip()` and the regex class `\s`
(ASCII range). -/
def isPyWs (c : Char) : Bool :=
  c = ' ' || c = '\t' || c = '\n' || c = '\r' || c.toNat = 11 || c.toNat = 12

/-- JSON whitespace accepted between tokens by `json.loads`. -/
def isJsonWs (c : Char) : Bool := c = ' ' || c = '\t' || c = '\n' || c = '\r'

/-- Drop leading JSON whitespace. -/
def skipJsonWs (s : List Char) : List Char := s.dropWhile isJsonWs

/-- Model of Python `str.strip()` (no argument: strip whitespace at both
ends). -/
def pyStripWs (s : List Char) : List Char :=
  ((s.dropWhile isPyWs).reverse.dropWhile isPyWs).reverse

/-- Model of Python `str.strip(c)` for a one-character argument. -/
def pyStripChar (c : Char) (s : List Char) : List Char :=
  ((s.dropWhile (· = c)).reverse.dropWhile (· = c)).reverse

/-- Model of Python `str.split(sep)` for a one-character separator:
`"".split(sep) = [""]`, and adjacent separators produce empty fields. -/
def pySplitChar (sep : Char) : List Char → List (List Char)
  | [] => [[]]
  | c :: cs =>
    let r := pySplitChar sep cs
    if c = sep then [] :: r
    else
      match r with
      | h :: t => (c :: h) :: t
      | [] => [[c]]

/-- Model of Python `str.lower()` (ASCII behaviour). -/
def pyLower (s : List Char) : List Char := s.map Char.toLower

/-- Whether `pat` is a leading subsequence of `s` (used to model literal
regex fragments and `str.startswith`). -/
def chStartsWith : List Char → List Char → Bool
  | [], _ => true
  | _ :: _, [] => false
  | p :: ps, c :: cs => p = c && chStartsWith ps cs

/-- Whether `pat` occurs contiguously inside `s` (Python `pat in s` on
strings). -/
def chContains (pat : List Char) : List Char → Bool
  | [] => pat.isEmpty
  | c :: cs => chStartsWith pat (c :: cs) || chContains pat cs

/-- Model of Python `str.endswith(pat)`. -/
def chEndsWith (pat s : List Char) : Bool := chStartsWith pat.reverse s.reverse

/-- Decimal digits to a natural number. -/
def digitsToNat (l : List Char) : Nat := l.foldl (fun a c => 10 * a + (c.toNat - 48)) 0

/-- Match a literal pattern case-sensitively, returning the rest of the
input on success. -/
def matchLit : List Char → List Char → Option (List Char)
  | [], s => some s
  | _ :: _, [] => none
  | p :: ps, c :: cs => if p = c then matchLit ps cs else none

/-- Match a literal pattern case-insensitively (regex flag `re.I`),
returning the rest of the input on success. -/
def matchLitCI : List Char → List Char → Option (List Char)
  | [], s => some s
  | _ :: _, [] => none
  | p :: ps, c :: cs => if p.toLower = c.toLower then matchLitCI ps cs else none

/-- Value of a hexadecimal digit. -/
def hexVal (c : Char) : Option Nat :=
  if c.isDigit then some (c.toNat - 48)
  else if 'a' ≤ c ∧ c ≤ 'f' then some (c.toNat - 87)
  else if 'A' ≤ c ∧ c ≤ 'F' then some (c.toNat - 70)
  else none

/-! ## JSON parser (model of `json.loads`)

The parser follows the strict JSON grammar that `json.loads` accepts by
default: double-quoted strings with the standard escapes (including
`\uXXXX`), numbers with optional fraction and exponent, `true`, `false`,
`null`, arrays and objects, and nothing after the top-level value.  Two
deliberate approximations: the nonstandard literals `NaN` and `Infinity`
(Python accepts them) are rejected, and a `\uXXXX` escape for a surrogate
code unit produces the replacement of `Char.ofNat` rather than pairing
surrogates.  Number literals are read as exact rationals. -/

/-- The decoded character for a one-character string escape. -/
def jsonEscapeChar : Char → Option Char
  | '"' => some '"'
  | '\\' => some '\\'
  | '/' => some '/'
  | 'b' => some (Char.ofNat 8)
  | 'f' => some (Char.ofNat 12)
  | 'n' => some '\n'
  | 'r' => some '\r'
  | 't' => some '\t'
  | _ => none

/-- Parse the body of a JSON string after the opening quote, returning the
decoded characters and the input after the closing quote.  Unescaped control
characters are rejected, as `json.loads` does in strict mode. -/
def parseJStrChars : List Char → Option (List Char × List Char)
  | [] => none
  | '"' :: r => some ([], r)
  | '\\' :: 'u' :: h1 :: h2 :: h3 :: h4 :: r =>
    match hexVal h1, hexVal h2, hexVal h3, hexVal h4 with
    | some a, some b, some c, some d =>
      (parseJStrChars r).map (fun p => (Char.ofNat (((a * 16 + b) * 16 + c) * 16 + d) :: p.1, p.2))
    | _, _, _, _ => none
  | '\\' :: e :: r =>
    match jsonEscapeChar e with
    | some c => (parseJStrChars r).map (fun p => (c :: p.1, p.2))
    | none => none
  | c :: r =>
    if c.toNat < 32 then none
    else (parseJStrChars r).map (fun p => (c :: p.1, p.2))

/-- Parse a JSON number (the input starts at its first character), returning
its exact rational value and the rest of the input. -/
def parseJNumber (s : List Char) : Option (ℚ × List Char) :=
  let signAndRest : Bool × List Char :=
    match s with
    | '-' :: r => (true, r)
    | _ => (false, s)
  let neg := signAndRest.1
  let s1 := signAndRest.2
  let intPart : Option (List Char × List Char) :=
    match s1 with
    | '0' :: r => some (['0'], r)
    | c :: r => if c.isDigit then some (c :: r.takeWhile Char.isDigit, r.dropWhile Char.isDigit) else none
    | [] => none
  match intPart with
  | none => none
  | some (intD, s2) =>
    let fracPart : Option (List Char × List Char) :=
      match s2 with
      | '.' :: r =>
        let ds := r.takeWhile Char.isDigit
        if ds.isEmpty then none else some (ds, r.dropWhile Char.isDigit)
      | _ => some ([], s2)
    match fracPart with
    | none => none
    | some (fracD, s3) =>
      let expPart : Option (Int × List Char) :=
        match s3 with
        | e :: r =>
          if e = 'e' ∨ e = 'E' then
            let signedRest : Bool × List Char :=
              match r with
              | '+' :: r2 => (false, r2)
              | '-' :: r2 => (true, r2)
              | _ => (false, r)
            let ds := signedRest.2.takeWhile Char.isDigit
            if ds.isEmpty then none
            else
              let e0 : Int := digitsToNat ds
              some (if signedRest.1 then -e0 else e0, signedRest.2.dropWhile Char.isDigit)
          else some (0, s3)
        | [] => some (0, s3)
      match expPart with
      | none => none
      | some (ex, s4) =>
        let fl := fracD.length
        let base : Int :=
          (if neg then -1 else 1) * ((digitsToNat intD : Int) * 10 ^ fl + (digitsToNat fracD : Int))
        let q : ℚ :=
          if 0 ≤ ex then mkRat (base * 10 ^ ex.toNat) (10 ^ fl)
          else mkRat base (10 ^ (fl + (-ex).toNat))
        some (q, s4)

mutual

/-- Parse a JSON value (leading whitespace allowed), with fuel bounding the
recursion depth; the top-level caller passes more fuel than the input length,
so the fuel never runs out on inputs the grammar accepts. -/
def parseJValue : Nat → List Char → Option (JsonValue × List Char)
  | 0, _ => none
  | fuel + 1, s =>
    match skipJsonWs s with
    | [] => none
    | 'n' :: cs => (matchLit "ull".toList cs).map (fun r => (.null, r))
    | 't' :: cs => (matchLit "rue".toList cs).map (fun r => (.bool true, r))
    | 'f' :: cs => (matchLit "alse".toList cs).map (fun r => (.bool false, r))
    | '"' :: cs => (parseJStrChars cs).map (fun p => (.str (String.mk p.1), p.2))
    | '[' :: cs =>
      match skipJsonWs cs with
      | ']' :: r => some (.arr [], r)
      | s2 => (parseJElems fuel s2).map (fun p => (.arr p.1, p.2))
    | '{' :: cs =>
      match skipJsonWs cs with
      | '}' :: r => some (.obj [], r)
      | s2 => (parseJMembers fuel s2).map (fun p => (.obj p.1, p.2))
    | c :: cs =>
      if c = '-' ∨ c.isDigit then (parseJNumber (c :: cs)).map (fun p => (.num p.1, p.2))
      else none

/-- Parse the elements of a nonempty JSON array up to and including the
closing bracket. -/
def parseJElems : Nat → List Char → Option (List JsonValue × List Char)
  | 0, _ => none
  | fuel + 1, s =>
    match parseJValue fuel s with
    | none => none
    | some (v, r) =>
      match skipJsonWs r with
      | ',' :: r2 => (parseJElems fuel r2).map (fun p => (v :: p.1, p.2))
      | ']' :: r2 => some ([v], r2)
      | _ => none

/-- Parse the members of a nonempty JSON object up to and including the
closing brace. -/
def parseJMembers : Nat → List Char → Option (List (String × JsonValue) × List Char)
  | 0, _ => none
  | fuel + 1, s =>
    match skipJsonWs s with
    | '"' :: cs =>
      match parseJStrChars cs with
      | none => none
      | some (key, r) =>
        match skipJsonWs r with
        | ':' :: r2 =>
          match parseJValue fuel r2 with
          | none => none
          | some (v, r3) =>
            match skipJsonWs r3 with
            | ',' :: r4 => (parseJMembers fuel r4).map (fun p => ((String.mk key, v) :: p.1, p.2))
            | '}' :: r4 => some ([(String.mk key, v)], r4)
            | _ => none
        | _ => none
    | _ => none

end

/-- Model of `json.loads`: parse one JSON value and require only whitespace
after it; any failure is `none` (the caller catches the exception). -/
def jsonLoads (s : List Char) : Option JsonValue :=
  match parseJValue (s.length + 1) s with
  | none => none
  | some (v, rest) => if (skipJsonWs rest).isEmpty then some v else none

/-! ## Models of the regex searches in `audiomack_downloader.py`

Each pattern of the source is implemented directly as a scanner with the
leftmost-match and greedy/lazy backtracking behaviour of `re`; the comments
name the pattern being modelled. -/

/-- The continuation of the JSON-LD script pattern after the greedy `[^>]+`
part: the literal type=, a quote (double or single), the ld+json media
type, a quote, any run of non-gt characters and a gt, followed by the lazy
body capture up to the closing script tag (with the dotall and ignorecase
flags). -/
def scriptCont (s : List Char) : Option (List Char) :=
  match matchLitCI "type=".toList s with
  | none => none
  | some s1 =>
    match s1 with
    | q :: s2 =>
      if q = '"' ∨ q.toNat = 39 then
        match matchLitCI "application/ld+json".toList s2 with
        | none => none
        | some s3 =>
          match s3 with
          | q2 :: s4 =>
            if q2 = '"' ∨ q2.toNat = 39 then
              match s4.dropWhile (· ≠ '>') with
              | '>' :: s5 => bodyUpToCloseTag s5
              | _ => none
            else none
          | [] => none
      else none
    | [] => none
where
  /-- Lazy capture: the shortest prefix followed by a case-insensitive
  `</script>`. -/
  bodyUpToCloseTag : List Char → Option (List Char)
    | [] => none
    | c :: cs =>
      if (matchLitCI "</script>".toList (c :: cs)).isSome then some []
      else (bodyUpToCloseTag cs).map (c :: ·)

/-- Greedy backtracking for the `[^>]+` part of the script pattern: try the
longest split first (consuming `k` non-`>` characters) and fall back to
shorter ones. -/
def tryASplit (r : List Char) : Nat → Option (List Char)
  | 0 => none
  | k + 1 =>
    match scriptCont (r.drop (k + 1)) with
    | some b => some b
    | none => tryASplit r k

/-- Attempt the whole script pattern at the current position. -/
def scriptAt (s : List Char) : Option (List Char) :=
  match matchLitCI "<script".toList s with
  | none => none
  | some r => tryASplit r (r.takeWhile (· ≠ '>')).length

/-- Leftmost match of the script pattern (an opening script tag whose
attributes contain the quoted ld+json type), returning the captured
body. -/
def findScriptBody : List Char → Option (List Char)
  | [] => none
  | c :: cs =>
    match scriptAt (c :: cs) with
    | some b => some b
    | none => findScriptBody cs

/-- Model of `_find_json_ld`: locate the script block, strip the capture and
parse it as JSON; any parse failure is absorbed into `none`. -/
def findJsonLd (text : List Char) : Option JsonValue :=
  match findScriptBody text with
  | none => none
  | some body => jsonLoads (pyStripWs body)

/-- Leftmost match of a meta-tag pattern `lit([^"]+)"` (case-insensitive),
where `lit` is the literal part ending in the opening quote of the content
attribute; returns the nonempty capture. -/
def findMetaContent (lit : List Char) : List Char → Option (List Char)
  | [] => none
  | c :: cs =>
    match matchLitCI lit (c :: cs) with
    | some r =>
      let cap := r.takeWhile (· ≠ '"')
      if !cap.isEmpty && !(r.drop cap.length).isEmpty then some cap
      else findMetaContent lit cs
    | none => findMetaContent lit cs

/-- The character class of the url body in the direct-link pattern: word
characters (ASCII reading of the w class) plus dash, slash, dot, underscore,
question mark, equals, ampersand and percent. -/
def isUrlChar (c : Char) : Bool :=
  c.isAlphanum || c = '_' || c = '-' || c = '/' || c = '.' || c = '?' || c = '=' || c = '&' || c = '%'

/-- The query-string character class of the direct-link pattern: anything
except a double quote, a single quote, a closing angle bracket and
whitespace. -/
def isQueryChar (c : Char) : Bool :=
  !(c = '"' || c.toNat = 39 || c = '>' || isPyWs c)

/-- Greedy backtracking for the url body followed by a literal dot and the
extension alternation: find the last dot position (trying `mp3` before
`m3u8` at each) whose suffix matches, returning the end position of the
extension. -/
def tryUrlDot (r : List Char) : Nat → Option Nat
  | 0 => none
  | k + 1 =>
    if (r.drop (k + 1)).head? = some '.' then
      if (matchLit "mp3".toList (r.drop (k + 2))).isSome then some (k + 5)
      else if (matchLit "m3u8".toList (r.drop (k + 2))).isSome then some (k + 6)
      else tryUrlDot r k
    else tryUrlDot r k

/-- Attempt the direct-link pattern (scheme `https?://`, then the url body
class, a literal dot, the `mp3` or `m3u8` alternation, and an optional query
suffix) at the current position, returning the matched text and the rest of
the input. -/
def urlAt (s : List Char) : Option (List Char × List Char) :=
  match matchLit "http".toList s with
  | none => none
  | some r0 =>
    let schemeRest : Option (List Char × List Char) :=
      match matchLit "s://".toList r0 with
      | some r1 => some ("https://".toList, r1)
      | none =>
        match matchLit "://".toList r0 with
        | some r1 => some ("http://".toList, r1)
        | none => none
    match schemeRest with
    | none => none
    | some (scheme, r1) =>
      match tryUrlDot r1 ((r1.takeWhile isUrlChar).length - 1) with
      | none => none
      | some e =>
        let endPos : Nat :=
          match r1.drop e with
          | '?' :: qs =>
            let qlen := (qs.takeWhile isQueryChar).length
            if qlen = 0 then e else e + 1 + qlen
          | _ => e
        some (scheme ++ r1.take endPos, r1.drop endPos)

/-- Model of the findall scanning for the direct-link pattern: leftmost matches,
resuming after the end of each match.  The fuel argument (instantiated with
more than the input length) only serves termination; every match consumes at
least one character. -/
def scanUrls : Nat → List Char → List (List Char)
  | 0, _ => []
  | fuel + 1, s =>
    match s with
    | [] => []
    | c :: cs =>
      match urlAt (c :: cs) with
      | some (m, rest) => m :: scanUrls fuel rest
      | none => scanUrls fuel cs

/-- First-seen-order dedup of the scanned url list (the `seen` set loop of
`_find_direct_audio_urls`). -/
def dedupStrs (seen : List (List Char)) : List (List Char) → List (List Char)
  | [] => []
  | u :: rest =>
    if seen.contains u then dedupStrs seen rest
    else u :: dedupStrs (u :: seen) rest

/-- Model of `_find_direct_audio_urls`: every direct `.mp3` / `.m3u8` link in
the page, deduplicated preserving order. -/
def findDirectAudioUrls (text : List Char) : List (List Char) :=
  dedupStrs [] (scanUrls (text.length + 1) text)

/-- Attempt the duration pattern
`"duration"\s*:\s*"PT?(?:(\d+)M)?(?:(\d+)S)?"` at the current position,
returning the two captured groups (`0` when a group is absent, as the source
applies `int(m.group(i) or 0)`). -/
def durAt (s : List Char) : Option (Nat × Nat) :=
  match matchLit "\"duration\"".toList s with
  | none => none
  | some r1 =>
    match r1.dropWhile isPyWs with
    | ':' :: r3 =>
      match r3.dropWhile isPyWs with
      | '"' :: 'P' :: r5 =>
        let r6 := match r5 with
          | 'T' :: t => t
          | _ => r5
        let ds1 := r6.takeWhile Char.isDigit
        let minsRest : Nat × List Char :=
          match r6.drop ds1.length with
          | 'M' :: t => if ds1.isEmpty then (0, r6) else (digitsToNat ds1, t)
          | _ => (0, r6)
        let r7 := minsRest.2
        let ds2 := r7.takeWhile Char.isDigit
        let secsRest : Nat × List Char :=
          match r7.drop ds2.length with
          | 'S' :: t => if ds2.isEmpty then (0, r7) else (digitsToNat ds2, t)
          | _ => (0, r7)
        match secsRest.2 with
        | '"' :: _ => some (minsRest.1, secsRest.1)
        | _ => none
      | _ => none
    | _ => none

/-- Leftmost match of the duration pattern (`re.search`). -/
def findDuration : List Char → Option (Nat × Nat)
  | [] => none
  | c :: cs =>
    match durAt (c :: cs) with
    | some p => some p
    | none => findDuration cs

/-! ## Model of `urllib.parse.urlparse` (the two components the source
reads) -/

/-- Whether a candidate scheme (the part before the first colon) has the
shape `urlparse` accepts: a letter followed by letters, digits, `+`, `-` or
`.`. -/
def validSchemeChars : List Char → Bool
  | [] => false
  | c :: cs => c.isAlpha && cs.all (fun x => x.isAlphanum || x = '+' || x = '-' || x = '.')

/-- Model of `urlparse(url)` restricted to `(netloc, path)`: split off the
scheme when present, read the netloc after `//` up to a `/`, `?` or `#`,
then drop query and fragment from the remainder. -/
def pyUrlparse (url : String) : List Char × List Char :=
  let s := url.toList
  let afterScheme : List Char :=
    let pre := s.takeWhile (· ≠ ':')
    if validSchemeChars pre ∧ (s.drop pre.length).head? = some ':' then s.drop (pre.length + 1)
    else s
  let nlAndRest : List Char × List Char :=
    match afterScheme with
    | '/' :: '/' :: rest =>
      let nl := rest.takeWhile (fun c => !(c = '/' || c = '?' || c = '#'))
      (nl, rest.drop nl.length)
    | r => ([], r)
  ((nlAndRest.1), (nlAndRest.2.takeWhile (· ≠ '#')).takeWhile (· ≠ '?'))

/-! ## Model of `extract_info` from `audiomack_downloader.py` -/

/-- A format entry of the shared metadata record shape
(`format_id` / `ext` / `url`). -/
structure FormatEntry where
  format_id : JsonValue
  ext : JsonValue
  url : JsonValue

/-- The shared metadata record (`title` / `thumbnail` / `uploader` /
`duration` / `formats`).  `duration` is `none` for Python `None` and
`some n` for an int. -/
structure Info where
  title : JsonValue
  thumbnail : JsonValue
  uploader : JsonValue
  duration : Option Int
  formats : List FormatEntry

/-- Outcome of the page fetch `requests.get(url, ...)`: a raised transport
exception or a response with a status code and body text. -/
inductive FetchOutcome where
  | timeout
  | requestError (msg : String)
  | response (status : Nat) (text : String)

/-- The `ext` computed for a JSON-LD audio content url: mp3 when the
lowercased url ends in dot-mp3, else the last dot-segment cut at the first
question mark. -/
def amExtOfContent (c : List Char) : List Char :=
  if chEndsWith ".mp3".toList (pyLower c) then "mp3".toList
  else (pySplitChar '?' ((pySplitChar '.' c).getLast?.getD [])).headD []

/-- The `ext` computed for a direct-scan url: mp3 when the lowercased url
ends in dot-mp3, m3u8 when it contains dot-m3u8, else the last dot-segment
(with no query cut on this path). -/
def amExtOfDirect (u : List Char) : List Char :=
  if chEndsWith ".mp3".toList (pyLower u) then "mp3".toList
  else if chContains ".m3u8".toList (pyLower u) then "m3u8".toList
  else (pySplitChar '.' u).getLast?.getD []

/-- The title read from the structured-data block: the name field, else
the headline field, else the still-unset title. -/
def amTitleOf (j : JsonValue) : JsonValue :=
  pyOr (jGet j "name") (pyOr (jGet j "headline") .null)

/-- The thumbnail read from the structured-data block: the first element
when the `image` field is a list (`IndexError` on an empty list), the field
itself otherwise. -/
def amImageThumb : JsonValue → Except PyError JsonValue
  | .arr [] => .error .indexError
  | .arr (x :: _) => .ok x
  | v => .ok v

/-- The uploader read from the structured-data block: the `name` of an
`author` dict, a literal `author` string, or unset. -/
def amUploaderOf (j : JsonValue) : JsonValue :=
  match jGet j "author" with
  | .obj kvs => jGet (.obj kvs) "name"
  | .str s => .str s
  | _ => .null

/-- The format entries contributed by the structured-data `audio` content
url: one entry when it is truthy (`AttributeError` at `.lower()` when it is
truthy but not a string), none otherwise. -/
def amAudioFormats (content : JsonValue) : Except PyError (List FormatEntry) :=
  if pyTruthy content then
    match content with
    | .str c => .ok [⟨.str "audio", .str (String.mk (amExtOfContent c.toList)), .str c⟩]
    | _ => .error .attributeError
  else .ok []

/-- The JSON-LD stage of `extract_info` (the `if json_ld:` block): starting
from the all-unset record, fill title, thumbnail, uploader and a first
format entry from the structured-data block when one is present and truthy.
A truthy non-dict block raises `AttributeError` at the first `.get`; an
empty `image` list raises `IndexError` at `image[0]`; a truthy non-string
audio content url raises `AttributeError` at `.lower()`. -/
def amJsonLdStage (text : List Char) :
    Except PyError (JsonValue × JsonValue × JsonValue × List FormatEntry) :=
  match findJsonLd text with
  | none => .ok (.null, .null, .null, [])
  | some j =>
    if pyTruthy j then
      match j with
      | .obj _ =>
        match amImageThumb (jGet j "image") with
        | .error e => .error e
        | .ok thumb =>
          match jGet j "audio" with
          | .obj akvs =>
            match amAudioFormats (pyOr (jGet (.obj akvs) "contentUrl") (jGet (.obj akvs) "url")) with
            | .error e => .error e
            | .ok fmts => .ok (amTitleOf j, thumb, amUploaderOf j, fmts)
          | _ => .ok (amTitleOf j, thumb, amUploaderOf j, [])
      | _ => .error .attributeError
    else .ok (.null, .null, .null, [])

/-- The dedup pass over the collected format list
(the url-truthiness and not-in-seen test of the source loop): keep entries
whose url is truthy and not seen before. -/
def dedupFormats (seen : List JsonValue) : List FormatEntry → List FormatEntry
  | [] => []
  | f :: rest =>
    if pyTruthy f.url && !(seen.any (fun u => jeq u f.url)) then
      f :: dedupFormats (f.url :: seen) rest
    else dedupFormats seen rest

/-- One `og:`/meta fallback of `extract_info`: when the field is still
falsy, search the page for the given meta-tag pattern and take the first
capture. -/
def amMetaFill (lit : List Char) (t : List Char) (v : JsonValue) : JsonValue :=
  if pyTruthy v then v
  else
    match findMetaContent lit t with
    | some cap => .str (String.mk cap)
    | none => v

/-- The format entries contributed by the direct-link scan. -/
def amDirectEntries (t : List Char) : List FormatEntry :=
  (findDirectAudioUrls t).map (fun u =>
    (⟨.str (String.mk (amExtOfDirect u)), .str (String.mk (amExtOfDirect u)),
      .str (String.mk u)⟩ : FormatEntry))

/-- The duration from the optional pattern search: `mins * 60 + secs` of
the leftmost match, unset when there is none. -/
def amDurationOf (t : List Char) : Option Int :=
  match findDuration t with
  | some p => some ((p.1 : Int) * 60 + p.2)
  | none => none

/-- The title fallback of the final sanity check: the last slash-segment
of the slash-stripped url path, or the fixed placeholder when that segment
is empty. -/
def amTitleFallback (url : String) : JsonValue :=
  if ((pySplitChar '/' (pyStripChar '/' (pyUrlparse url).2)).getLast?.getD []).isEmpty then
    .str "Audiomack Track"
  else .str (String.mk ((pySplitChar '/' (pyStripChar '/' (pyUrlparse url).2)).getLast?.getD []))

/-- The final title: keep a truthy title, otherwise derive it from the url
path. -/
def amFinalTitle (url : String) (v : JsonValue) : JsonValue :=
  if pyTruthy v then v else amTitleFallback url

/-- The literal head of the `og:title` meta pattern. -/
def ogTitleLit : List Char := "<meta property=\"og:title\" content=\"".toList

/-- The literal head of the `og:image` meta pattern. -/
def ogImageLit : List Char := "<meta property=\"og:image\" content=\"".toList

/-- The literal head of the `author` meta pattern. -/
def authorLit : List Char := "<meta name=\"author\" content=\"".toList

/-- Model of `extract_info(url)` from `audiomack_downloader.py`.  The
network fetch is an oracle argument; everything after it follows the
source: the status checks, the JSON-LD stage, the `og:` meta-tag fallbacks,
the direct-link scan, the url dedup pass, the optional duration pattern and
the final title fallback derived from the url path. -/
def amExtractInfo (fetch : FetchOutcome) (url : String) : Except PyError Info :=
  match fetch with
  | .timeout => .error (.raised "Request timed out while accessing Audiomack track.")
  | .requestError e => .error (.raised ("Failed to access Audiomack track: " ++ e))
  | .response status text =>
    if status = 403 then
      .error (.raised "This track is not publicly accessible. It may be premium-only or region-restricted.")
    else if status = 404 then
      .error (.raised "Track not found. It may have been deleted or made private.")
    else if status ≠ 200 then
      .error (.raised ("Failed to access Audiomack track (HTTP " ++ toString status ++ ")"))
    else
      match amJsonLdStage text.toList with
      | .error e => .error e
      | .ok (title0, thumb0, up0, fmts0) =>
        .ok { title := amFinalTitle url (amMetaFill ogTitleLit text.toList title0),
              thumbnail := amMetaFill ogImageLit text.toList thumb0,
              uploader := amMetaFill authorLit text.toList up0,
              duration := amDurationOf text.toList,
              formats := dedupFormats [] (fmts0 ++ amDirectEntries text.toList) }

/-! ## Model of `download_direct` from `audiomack_downloader.py` -/

/-- Outcome of the streaming GET issued by `download_direct`: a raised
transport exception, or a response with a status, an optional
`Content-Length` header value and the streamed chunk sequence (chunks are
byte lists, as yielded by `iter_content`). -/
inductive DlFetch where
  | timeout
  | connError
  | requestError (msg : String)
  | response (status : Nat) (contentLength : Option String) (chunks : List (List Nat))

/-- One invocation of the progress callback (the dict passed to it); the
`speed` key is present only on `downloading` events. -/
structure ProgressEvent where
  status : String
  downloaded_bytes : Nat
  total_bytes : Int
  percentage : Int
  speed : Option Int
deriving DecidableEq

/-- Model of `int(downloaded / elapsed) if elapsed > 0 else 0`: truncation
toward zero of the exact rational quotient (the elapsed seconds come from
the clock oracle). -/
def pySpeed (elapsed : ℚ) (downloaded : Nat) : Int :=
  if 0 < elapsed then ((downloaded : Int) * (elapsed.den : Int)).tdiv elapsed.num else 0

/-- Model of `int((downloaded / total) * 100) if total else 0`: under the
exact-rational reading of float division this is truncation toward zero of
`downloaded * 100 / total`. -/
def pyPercentage (downloaded : Nat) (total : Int) : Int :=
  if total ≠ 0 then ((downloaded : Int) * 100).tdiv total else 0

/-- The dict passed to the callback for one `downloading` event. -/
def mkDownloadingEv (total : Int) (elapsed : ℚ) (downloaded : Nat) : ProgressEvent :=
  { status := "downloading", downloaded_bytes := downloaded, total_bytes := total,
    percentage := pyPercentage downloaded total, speed := some (pySpeed elapsed downloaded) }

/-- The chunk loop of `download_direct`: empty chunks are skipped; each
non-empty chunk is appended to the file, added to the running byte count,
and reported through the callback.  `i` counts callback invocations (the
clock oracle is read once per invocation).  Returns the events, the final
byte count and the bytes written. -/
def dlLoop (total : Int) (clock : Nat → ℚ) :
    List (List Nat) → Nat → Nat → List ProgressEvent × Nat × List Nat
  | [], _, d => ([], d, [])
  | c :: rest, i, d =>
    if c.isEmpty then dlLoop total clock rest i d
    else
      let d2 := d + c.length
      let r := dlLoop total clock rest (i + 1) d2
      (mkDownloadingEv total (clock i) d2 :: r.1, r.2.1, c ++ r.2.2)

/-- Model of `int(s)` on a header string: optional surrounding whitespace,
an optional sign, one or more digits; anything else raises `ValueError`. -/
def pyIntOfString (s : String) : Except PyError Int :=
  let t := pyStripWs s.toList
  let signAndDigits : Bool × List Char :=
    match t with
    | '-' :: r => (true, r)
    | '+' :: r => (false, r)
    | _ => (false, t)
  if signAndDigits.2.isEmpty || !(signAndDigits.2.all Char.isDigit) then .error .valueError
  else
    let n : Int := digitsToNat signAndDigits.2
    .ok (if signAndDigits.1 then -n else n)

/-- Model of `download_direct(url, output_path, progress_callback, timeout)`.
The streamed response and the clock are oracles; the callback is modelled as
supplied, with its invocations collected in order; the file write is
modelled as pure byte accumulation (directory creation and the write-failure
branch are filesystem effects outside the model).  Returns the callback
events and the bytes written to the destination. -/
def downloadDirect (fetch : DlFetch) (clock : Nat → ℚ) :
    Except PyError (List ProgressEvent × List Nat) :=
  match fetch with
  | .timeout => .error (.raised "Download timed out. Please try again.")
  | .connError => .error (.raised "Connection error. Please check your internet connection.")
  | .requestError e => .error (.raised ("Failed to download audio: " ++ e))
  | .response status cl chunks =>
    if status = 403 then
      .error (.raised "Access denied. The track may be premium-only or not available in your region.")
    else if status = 404 then
      .error (.raised "The audio file was not found. The track may have been removed.")
    else if status ≠ 200 then
      .error (.raised ("Failed to download audio (HTTP " ++ toString status ++ ")"))
    else
      let totalE : Except PyError Int :=
        match cl with
        | none => .ok 0
        | some s => if s = "" then .ok 0 else pyIntOfString s
      match totalE with
      | .error e => .error e
      | .ok total =>
        let r := dlLoop total clock chunks 0 0
        .ok (r.1 ++ [{ status := "finished", downloaded_bytes := r.2.1, total_bytes := total,
                       percentage := 100, speed := none }], r.2.2)

/-! ## Model of `spotify_utils.py` -/

/-- Process configuration read from the environment: the pre-provisioned
bearer token, the client id and the client secret (each absent or a string,
possibly empty — the source tests them for truthiness). -/
structure SpEnv where
  bearerToken : Option String
  clientId : Option String
  clientSecret : Option String

/-- Truthiness of an optional environment string (`if not client_id` and
the `if bearer:` test): absent or empty is falsy. -/
def pyTruthyOpt : Option String → Bool
  | none => false
  | some s => !(s == "")

/-- An HTTP response with its JSON body already parsed (the source calls
`resp.json()` directly on these paths). -/
structure HttpResp where
  status : Nat
  text : String
  json : JsonValue

/-- Network oracle for one `extract_info` call: the token-endpoint POST,
the oEmbed GET and the resource GET, each either a transport-exception
message or a response.  Each call path consults at most one of these. -/
structure SpOracle where
  tokenResp : Except String HttpResp
  oembedResp : Except String HttpResp
  apiResp : Except String HttpResp

/-- Model of `str(token)` as interpolated into the authorization header.
The string and `None` cases are the faithful ones; other value shapes do
not occur on the paths the claims exercise and get a schematic rendering. -/
def pyStrOf : JsonValue → String
  | .str s => s
  | .null => "None"
  | .bool b => if b then "True" else "False"
  | .num q => toString q.num
  | .arr _ => "<list>"
  | .obj _ => "<dict>"

/-- Model of `get_access_token`: require truthy client id and secret, POST
to the token endpoint, require a 200, and read `access_token` from the
JSON body (an `AttributeError` when the body is not an object). -/
def getAccessToken (env : SpEnv) (tokenResp : Except String HttpResp) :
    Except PyError JsonValue :=
  if !(pyTruthyOpt env.clientId) || !(pyTruthyOpt env.clientSecret) then
    .error (.raised "SPOTIFY client credentials not configured")
  else
    match tokenResp with
    | .error e => .error (.raised e)
    | .ok r =>
      if r.status ≠ 200 then
        .error (.raised ("Failed to obtain Spotify token: " ++ toString r.status ++ " " ++ r.text))
      else
        match r.json with
        | .obj kvs => .ok (jGet (.obj kvs) "access_token")
        | _ => .error .attributeError

/-- Model of `_get_auth_headers`, returning the authorization header value
and whether the token endpoint was reached (the second component expresses
the no-network-call property of the pre-provisioned bearer path). -/
def getAuthHeaders (env : SpEnv) (tokenResp : Except String HttpResp) :
    Except PyError String × Bool :=
  if pyTruthyOpt env.bearerToken then
    (.ok ("Bearer " ++ env.bearerToken.getD ""), false)
  else
    match getAccessToken env tokenResp with
    | .error e => (.error e, pyTruthyOpt env.clientId && pyTruthyOpt env.clientSecret)
    | .ok tok => (.ok ("Bearer " ++ pyStrOf tok), pyTruthyOpt env.clientId && pyTruthyOpt env.clientSecret)

/-- Model of `_parse_spotify_url`: the lowercased netloc must contain the
vendor domain marker, and the stripped path must have at least two
segments, read as resource type and id. -/
def parseSpotifyUrl (url : String) : Option (String × String) :=
  let p := pyUrlparse url
  let host := pyLower p.1
  if !(chContains "open.spotify.com".toList host) && !(chContains "spotify".toList host) then
    none
  else
    match pySplitChar '/' (pyStripChar '/' p.2) with
    | p0 :: p1 :: _ => some (String.mk p0, String.mk p1)
    | _ => none

/-- Model of the artists comprehension (collecting the truthy name of
each artist dict):
iterating a non-list raises `TypeError`, except strings and dicts, which
iterate their characters and keys (on a nonempty one the element then fails
the `.get` with `AttributeError`); each list element must be a dict, and
only truthy names are collected. -/
def spArtistNames : JsonValue → Except PyError (List JsonValue)
  | .arr l => collect l
  | .str s => if s == "" then .ok [] else .error .attributeError
  | .obj kvs => if kvs.isEmpty then .ok [] else .error .attributeError
  | _ => .error .typeError
where
  /-- Collect the truthy names of a list of artist dicts. -/
  collect : List JsonValue → Except PyError (List JsonValue)
    | [] => .ok []
    | a :: rest =>
      match a with
      | .obj kvs =>
        match collect rest with
        | .error e => .error e
        | .ok ns =>
          .ok (if pyTruthy (jGet (.obj kvs) "name") then jGet (.obj kvs) "name" :: ns else ns)
      | _ => .error .attributeError

/-- Model of the comma-space join of the artist names: every element must
be a string (`TypeError` otherwise). -/
def pyJoinComma : List JsonValue → Except PyError String
  | [] => .ok ""
  | [.str s] => .ok s
  | .str s :: rest =>
    match pyJoinComma rest with
    | .error e => .error e
    | .ok r => .ok (s ++ ", " ++ r)
  | _ => .error .typeError

/-- Model of the thumbnail assignment (read the images field of the
container dict, default an empty list; when truthy, take the url of its
first element).  A truthy non-list `images`
value fails by Python type: a string subscripts to a character (then
`AttributeError` at `.get`), a dict raises `KeyError` at an integer
subscript, numbers and booleans raise `TypeError`; the first element of a
truthy list must be a dict (`AttributeError` otherwise). -/
def spThumbFrom (container : JsonValue) : Except PyError JsonValue :=
  match container with
  | .obj kvs =>
    if pyTruthy (jGetD (.obj kvs) "images" (.arr [])) then
      match jGetD (.obj kvs) "images" (.arr []) with
      | .arr (x :: _) =>
        match x with
        | .obj xkvs => .ok (jGet (.obj xkvs) "url")
        | _ => .error .attributeError
      | .arr [] => .error .indexError
      | .str _ => .error .attributeError
      | .obj _ => .error .keyError
      | _ => .error .typeError
    else .ok .null
  | _ => .error .attributeError

/-- Model of the int of the duration_ms field (default 0) divided by
1000: the value must be a
number or a bool (Python bools divide as ints, and both truncate to `0`
after division by 1000); on a rational `q` the result is truncation toward
zero of the exact quotient of `q` by 1000. -/
def spDurationOf (v : JsonValue) : Except PyError Int :=
  match v with
  | .num q => .ok (q.num.tdiv (1000 * (q.den : Int)))
  | .bool _ => .ok 0
  | _ => .error .typeError

/-- Model of the `track` branch of `extract_info`: map the track resource
response into the shared record. -/
def spTrackInfo (resp : HttpResp) : Except PyError Info :=
  if resp.status ≠ 200 then
    .error (.raised ("Spotify API error: " ++ toString resp.status ++ " " ++ resp.text))
  else
    match resp.json with
    | .obj kvs =>
      match spArtistNames (jGetD (.obj kvs) "artists" (.arr [])) with
      | .error e => .error e
      | .ok names =>
        match (if names.isEmpty then Except.ok JsonValue.null
               else (pyJoinComma names).map JsonValue.str) with
        | .error e => .error e
        | .ok uploader =>
          match spThumbFrom (jGetD (.obj kvs) "album" (.obj [])) with
          | .error e => .error e
          | .ok thumb =>
            match spDurationOf (jGetD (.obj kvs) "duration_ms" (.num 0)) with
            | .error e => .error e
            | .ok dur =>
              .ok { title := jGet (.obj kvs) "name", thumbnail := thumb, uploader := uploader,
                    duration := some dur,
                    formats :=
                      if pyTruthy (jGet (.obj kvs) "preview_url") then
                        [⟨.str "preview", .str "mp3", jGet (.obj kvs) "preview_url"⟩]
                      else [] }
    | _ => .error .attributeError

/-- Model of the album-track loop: one format entry per item of the items
list under the tracks field, with `format_id` the track id,
`ext` `preview` or `none` by preview presence, and `url` the preview url or
`None`.  Iterating a non-list raises `TypeError` (empty strings and dicts
iterate to nothing, nonempty ones fail at the element `.get`); each item
must be a dict. -/
def spItemFormats : JsonValue → Except PyError (List FormatEntry)
  | .arr l => collect l
  | .str s => if s == "" then .ok [] else .error .attributeError
  | .obj kvs => if kvs.isEmpty then .ok [] else .error .attributeError
  | _ => .error .typeError
where
  /-- Map the items of the album track list to format entries. -/
  collect : List JsonValue → Except PyError (List FormatEntry)
    | [] => .ok []
    | t :: rest =>
      match t with
      | .obj kvs =>
        match collect rest with
        | .error e => .error e
        | .ok fs =>
          .ok (⟨jGet (.obj kvs) "id",
                .str (if pyTruthy (jGet (.obj kvs) "preview_url") then "preview" else "none"),
                jGet (.obj kvs) "preview_url"⟩ :: fs)
      | _ => .error .attributeError

/-- Model of the playlist-item loop: like the album loop but reading each
entry from the track field of the item, defaulted to an empty dict when
falsy. -/
def spPlaylistItemFormats : JsonValue → Except PyError (List FormatEntry)
  | .arr l => collect l
  | .str s => if s == "" then .ok [] else .error .attributeError
  | .obj kvs => if kvs.isEmpty then .ok [] else .error .attributeError
  | _ => .error .typeError
where
  /-- Map the playlist items to format entries. -/
  collect : List JsonValue → Except PyError (List FormatEntry)
    | [] => .ok []
    | item :: rest =>
      match item with
      | .obj kvs =>
        match pyOr (jGet (.obj kvs) "track") (.obj []) with
        | .obj tkvs =>
          match collect rest with
          | .error e => .error e
          | .ok fs =>
            .ok (⟨jGet (.obj tkvs) "id",
                  .str (if pyTruthy (jGet (.obj tkvs) "preview_url") then "preview" else "none"),
                  jGet (.obj tkvs) "preview_url"⟩ :: fs)
        | _ => .error .attributeError
      | _ => .error .attributeError

/-- Model of the `album` branch of `extract_info`. -/
def spAlbumInfo (resp : HttpResp) : Except PyError Info :=
  if resp.status ≠ 200 then
    .error (.raised ("Spotify API error: " ++ toString resp.status ++ " " ++ resp.text))
  else
    match resp.json with
    | .obj kvs =>
      match (match jGetD (.obj kvs) "artists" (.arr [.obj []]) with
             | .arr (x :: _) =>
               match x with
               | .obj xkvs => Except.ok (jGet (.obj xkvs) "name")
               | _ => Except.error PyError.attributeError
             | .arr [] => Except.error PyError.indexError
             | .str s => Except.error (if s = "" then PyError.indexError else PyError.attributeError)
             | .obj _ => Except.error PyError.keyError
             | _ => Except.error PyError.typeError) with
      | .error e => .error e
      | .ok uploader =>
        match spThumbFrom (.obj kvs) with
        | .error e => .error e
        | .ok thumb =>
          match (match jGetD (.obj kvs) "tracks" (.obj []) with
                 | .obj tkvs => Except.ok (jGetD (.obj tkvs) "items" (.arr []))
                 | _ => Except.error PyError.attributeError) with
          | .error e => .error e
          | .ok items =>
            match spItemFormats items with
            | .error e => .error e
            | .ok fs =>
              .ok { title := jGet (.obj kvs) "name", thumbnail := thumb, uploader := uploader,
                    duration := none, formats := fs }
    | _ => .error .attributeError

/-- Model of the `playlist` branch of `extract_info`. -/
def spPlaylistInfo (resp : HttpResp) : Except PyError Info :=
  if resp.status ≠ 200 then
    .error (.raised ("Spotify API error: " ++ toString resp.status ++ " " ++ resp.text))
  else
    match resp.json with
    | .obj kvs =>
      match (match jGetD (.obj kvs) "owner" (.obj []) with
             | .obj okvs => Except.ok (jGet (.obj okvs) "display_name")
             | _ => Except.error PyError.attributeError) with
      | .error e => .error e
      | .ok uploader =>
        match spThumbFrom (.obj kvs) with
        | .error e => .error e
        | .ok thumb =>
          match (match jGetD (.obj kvs) "tracks" (.obj []) with
                 | .obj tkvs => Except.ok (jGetD (.obj tkvs) "items" (.arr []))
                 | _ => Except.error PyError.attributeError) with
          | .error e => .error e
          | .ok items =>
            match spPlaylistItemFormats items with
            | .error e => .error e
            | .ok fs =>
              .ok { title := jGet (.obj kvs) "name", thumbnail := thumb, uploader := uploader,
                    duration := none, formats := fs }
    | _ => .error .attributeError

/-- Model of the oEmbed fallback block: a transport failure or any
exception inside the `try` is caught and its `str` becomes the failure
cause; a 200 yields a record with only title, uploader and thumbnail. -/
def embedAttempt (oresp : Except String HttpResp) : Except String Info :=
  match oresp with
  | .error e => .error e
  | .ok r =>
    if r.status = 200 then
      match r.json with
      | .obj kvs =>
        .ok { title := jGet (.obj kvs) "title", thumbnail := jGet (.obj kvs) "thumbnail_url",
              uploader := jGet (.obj kvs) "author_name", duration := none, formats := [] }
      | _ => .error (pyExcStr .attributeError)
    else .error ("oEmbed failed: " ++ toString r.status ++ " " ++ r.text)

/-- Model of `extract_info(url)` from `spotify_utils.py`: parse the url,
try the auth chain, fall back to oEmbed on any auth failure (composing the
final error message from the fixed credentials text and the oEmbed failure
cause), and otherwise dispatch on the resource type, consulting the
resource oracle only in the three supported branches. -/
def spExtractInfo (env : SpEnv) (oracle : SpOracle) (url : String) : Except PyError Info :=
  match parseSpotifyUrl url with
  | none => .error (.raised "Invalid Spotify URL")
  | some (typ, _) =>
    match (getAuthHeaders env oracle.tokenResp).1 with
    | .error _ =>
      match embedAttempt oracle.oembedResp with
      | .ok i => .ok i
      | .error oe =>
        .error (.raised ("Spotify credentials or bearer token are required for full metadata (preview URLs). Fallback oEmbed failed: " ++ oe))
    | .ok _ =>
      if typ = "track" then
        match oracle.apiResp with
        | .error e => .error (.raised e)
        | .ok resp => spTrackInfo resp
      else if typ = "album" then
        match oracle.apiResp with
        | .error e => .error (.raised e)
        | .ok resp => spAlbumInfo resp
      else if typ = "playlist" then
        match oracle.apiResp with
        | .error e => .error (.raised e)
        | .ok resp => spPlaylistInfo resp
      else .error (.raised "Unsupported Spotify resource type")

/-- The dedup invariant of the spec (section 3): no two entries of a format
list carry the same non-null url — whenever two entries have equal urls,
that url is `null`. -/
def NoDupNonNullUrls (fs : List FormatEntry) : Prop :=
  fs.Pairwise (fun a b => a.url = b.url → a.url = JsonValue.null)

/-! ## Helper lemmas -/

mutual

/-- Reflexivity of jeq. -/
theorem jeq_refl : ∀ a, jeq a a = true
  | .null => rfl
  | .bool b => by simp [jeq]
  | .num q => by simp [jeq]
  | .str s => by simp [jeq]
  | .arr xs => by rw [jeq]; exact jeqL_refl xs
  | .obj xs => by rw [jeq]; exact jeqKV_refl xs

/-- Reflexivity of jeqL. -/
theorem jeqL_refl : ∀ xs, jeqL xs xs = true
  | [] => rfl
  | x :: xs => by rw [jeqL, jeq_refl x, jeqL_refl xs]; rfl

/-- Reflexivity of jeqKV. -/
theorem jeqKV_refl : ∀ xs, jeqKV xs xs = true
  | [] => rfl
  | (k, v) :: xs => by rw [jeqKV, jeq_refl v, jeqKV_refl xs]; simp

end

/-- Every entry surviving the dedup pass has a url that was not in the
`seen` accumulator. -/
theorem dedupFormats_not_seen (fs : List FormatEntry) :
    ∀ (seen : List JsonValue), ∀ f ∈ dedupFormats seen fs,
      (seen.any (fun u => jeq u f.url)) = false := by
  induction fs with
  | nil => intro seen f hf; simp [dedupFormats] at hf
  | cons g rest ih =>
    intro seen f hf
    rw [dedupFormats] at hf
    split at hf
    · rename_i hcond
      rcases List.mem_cons.mp hf with hEq | hTail
      · subst hEq
        simp only [Bool.and_eq_true, Bool.not_eq_true'] at hcond
        exact hcond.2
      · have := ih (g.url :: seen) f hTail
        rw [List.any_cons] at this
        exact (Bool.or_eq_false_iff.mp this).2
    · exact ih seen f hf

/-- The dedup pass yields pairwise distinct urls. -/
theorem dedupFormats_pairwise (fs : List FormatEntry) :
    ∀ (seen : List JsonValue), (dedupFormats seen fs).Pairwise (fun a b => a.url ≠ b.url) := by
  induction fs with
  | nil => intro seen; simp [dedupFormats]
  | cons g rest ih =>
    intro seen
    rw [dedupFormats]
    split
    · refine List.Pairwise.cons ?_ (ih (g.url :: seen))
      intro f hf hEqUrl
      have hns := dedupFormats_not_seen rest (g.url :: seen) f hf
      rw [List.any_cons] at hns
      have h1 := (Bool.or_eq_false_iff.mp hns).1
      rw [hEqUrl] at h1
      rw [jeq_refl f.url] at h1
      exact Bool.noConfusion h1
    · exact ih seen

/-- The only error of the image stage is `IndexError`. -/
theorem amImageThumb_error (v : JsonValue) (e : PyError)
    (h : amImageThumb v = .error e) : e = .indexError := by
  unfold amImageThumb at h
  split at h <;> simp_all

/-- The only error of the audio stage is `AttributeError`. -/
theorem amAudioFormats_error (c : JsonValue) (e : PyError)
    (h : amAudioFormats c = .error e) : e = .attributeError := by
  unfold amAudioFormats at h
  split at h
  · split at h <;> simp_all
  · simp_all

/-- The errors of the JSON-LD stage are runtime errors, never an explicit
`raise`. -/
theorem amJsonLdStage_error_shape (text : List Char) (e : PyError)
    (h : amJsonLdStage text = .error e) : e = .attributeError ∨ e = .indexError := by
  unfold amJsonLdStage at h
  split at h
  · simp at h
  · split at h
    · split at h
      · split at h
        · rename_i hImg
          cases h
          exact Or.inr (amImageThumb_error _ _ hImg)
        · split at h
          · split at h
            · rename_i hAud
              cases h
              exact Or.inl (amAudioFormats_error _ _ hAud)
            · simp at h
          · simp at h
      · cases h
        exact Or.inl rfl
    · simp at h

/-- On a 200 response, every failure of the HTML extractor is a runtime
error, never an explicit `raise`. -/
theorem am200_error_shape (text url : String) (e : PyError)
    (h : amExtractInfo (.response 200 text) url = .error e) :
    e = .attributeError ∨ e = .indexError := by
  simp only [amExtractInfo, show ((200 : Nat) = 403) = False by simp,
    show ((200 : Nat) = 404) = False by simp, show ((200 : Nat) ≠ 200) = False by simp,
    if_false, if_true] at h
  split at h
  · rename_i hJ
    cases h
    exact amJsonLdStage_error_shape _ _ hJ
  · simp at h

/-- A 403 response maps to the access-denied message. -/
theorem am403 (text url : String) :
    amExtractInfo (.response 403 text) url =
      .error (.raised "This track is not publicly accessible. It may be premium-only or region-restricted.") := by
  simp [amExtractInfo]

/-- A 404 response maps to the not-found message. -/
theorem am404 (text url : String) :
    amExtractInfo (.response 404 text) url =
      .error (.raised "Track not found. It may have been deleted or made private.") := by
  simp [amExtractInfo]

/-- Any other non-200 response maps to the generic status message. -/
theorem amGeneric (status : Nat) (text url : String)
    (h200 : status ≠ 200) (h403 : status ≠ 403) (h404 : status ≠ 404) :
    amExtractInfo (.response status text) url =
      .error (.raised ("Failed to access Audiomack track (HTTP " ++ toString status ++ ")")) := by
  simp [amExtractInfo, h200, h403, h404]

/-- The generic status message always starts with the letter F. -/
theorem genericMsg_head (suffix : String) :
    ("Failed to access Audiomack track (HTTP " ++ suffix).data.head? = some 'F' := by
  rw [String.data_append]
  rfl

/-! ## Claim theorems -/

/-- Claim C6: for every page fetch by the HTML extractor, extraction fails
with the not-found error exactly when the response status is 404, with the
access error exactly when it is 403, and with the generic unexpected-status
error for any other non-200 status; the three failure messages are pairwise
distinct, so each failure is a specific error. -/
theorem claim_C6 (status : Nat) (text url : String) :
    (status = 403 → amExtractInfo (.response status text) url =
      .error (.raised "This track is not publicly accessible. It may be premium-only or region-restricted.")) ∧
    (status = 404 → amExtractInfo (.response status text) url =
      .error (.raised "Track not found. It may have been deleted or made private.")) ∧
    (status ≠ 200 → status ≠ 403 → status ≠ 404 → amExtractInfo (.response status text) url =
      .error (.raised ("Failed to access Audiomack track (HTTP " ++ toString status ++ ")"))) ∧
    (amExtractInfo (.response status text) url =
      .error (.raised "Track not found. It may have been deleted or made private.") ↔ status = 404) ∧
    (amExtractInfo (.response status text) url =
      .error (.raised "This track is not publicly accessible. It may be premium-only or region-restricted.") ↔
      status = 403) ∧
    ("This track is not publicly accessible. It may be premium-only or region-restricted." ≠
      "Track not found. It may have been deleted or made private.") ∧
    (∀ s : String,
      "Track not found. It may have been deleted or made private." ≠
        ("Failed to access Audiomack track (HTTP " ++ s) ∧
      "This track is not publicly accessible. It may be premium-only or region-restricted." ≠
        ("Failed to access Audiomack track (HTTP " ++ s)) := by
  have hgen : ∀ s : String,
      ("Failed to access Audiomack track (HTTP " ++ s) ≠
        "Track not found. It may have been deleted or made private." ∧
      ("Failed to access Audiomack track (HTTP " ++ s) ≠
        "This track is not publicly accessible. It may be premium-only or region-restricted." := by
    intro s
    constructor <;> intro h <;>
      (have h2 := genericMsg_head s; rw [h] at h2; exact absurd h2 (by decide))
  refine ⟨fun h => by subst h; exact am403 text url,
    fun h => by subst h; exact am404 text url,
    fun h200 h403 h404 => amGeneric status text url h200 h403 h404,
    ⟨?_, fun h => by subst h; exact am404 text url⟩,
    ⟨?_, fun h => by subst h; exact am403 text url⟩,
    by decide,
    fun s => ⟨(hgen s).1.symm, (hgen s).2.symm⟩⟩
  · intro h
    by_cases h404 : status = 404
    · exact h404
    exfalso
    by_cases h403 : status = 403
    · subst h403
      rw [am403 text url] at h
      injection h with h2
      injection h2 with h3
      exact absurd h3 (by decide)
    by_cases h200 : status = 200
    · subst h200
      rcases am200_error_shape text url _ h with h2 | h2 <;> simp at h2
    · rw [amGeneric status text url h200 h403 h404] at h
      injection h with h2
      injection h2 with h3
      rw [String.append_assoc] at h3
      exact (hgen (toString status ++ ")")).1 h3
  · intro h
    by_cases h403 : status = 403
    · exact h403
    exfalso
    by_cases h404 : status = 404
    · subst h404
      rw [am404 text url] at h
      injection h with h2
      injection h2 with h3
      exact absurd h3 (by decide)
    by_cases h200 : status = 200
    · subst h200
      rcases am200_error_shape text url _ h with h2 | h2 <;> simp at h2
    · rw [amGeneric status text url h200 h403 h404] at h
      injection h with h2
      injection h2 with h3
      rw [String.append_assoc] at h3
      exact (hgen (toString status ++ ")")).2 h3

/-- Witness for claim C6 at the statuses 403, 404 and 500. -/
theorem claim_C6_witness :
    amExtractInfo (.response 403 "b") "u" =
      .error (.raised "This track is not publicly accessible. It may be premium-only or region-restricted.") ∧
    amExtractInfo (.response 404 "b") "u" =
      .error (.raised "Track not found. It may have been deleted or made private.") ∧
    amExtractInfo (.response 500 "b") "u" =
      .error (.raised "Failed to access Audiomack track (HTTP 500)") :=
  ⟨(claim_C6 403 "b" "u").1 rfl, (claim_C6 404 "b" "u").2.1 rfl,
   (claim_C6 500 "b" "u").2.2.1 (by decide) (by decide) (by decide)⟩

/-- Claim C7: the vendor-client auth chain — a truthy pre-provisioned
bearer token is used directly with no token-endpoint call; otherwise the
client-credential exchange fails with the configuration error when id or
secret is absent; and when the auth chain fails and the embed fallback also
fails, the surfaced error appends the embed failure cause to the fixed text
naming the required credentials, so it names both causes. -/
theorem claim_C7 (env : SpEnv) (oracle : SpOracle) (url : String) :
    (pyTruthyOpt env.bearerToken = true →
      getAuthHeaders env oracle.tokenResp = (.ok ("Bearer " ++ env.bearerToken.getD ""), false)) ∧
    (pyTruthyOpt env.bearerToken = false →
      (pyTruthyOpt env.clientId = false ∨ pyTruthyOpt env.clientSecret = false) →
      (getAuthHeaders env oracle.tokenResp).1 =
        .error (.raised "SPOTIFY client credentials not configured")) ∧
    (∀ typ objId err oe,
      parseSpotifyUrl url = some (typ, objId) →
      (getAuthHeaders env oracle.tokenResp).1 = .error err →
      embedAttempt oracle.oembedResp = .error oe →
      spExtractInfo env oracle url = .error (.raised
        ("Spotify credentials or bearer token are required for full metadata (preview URLs). Fallback oEmbed failed: "
          ++ oe))) := by
  refine ⟨?_, ?_, ?_⟩
  · intro hb
    unfold getAuthHeaders
    rw [if_pos hb]
  · intro hb hcred
    unfold getAuthHeaders
    rw [if_neg (by simp [hb])]
    have hTok : getAccessToken env oracle.tokenResp =
        .error (.raised "SPOTIFY client credentials not configured") := by
      unfold getAccessToken
      rcases hcred with h | h <;> rw [if_pos (by simp [h])]
    rw [hTok]
  · intro typ objId err oe hurl hauth hembed
    simp [spExtractInfo, hurl, hauth, hembed]

/-- Witness for claim C7: a configured bearer token is used directly, a
missing secret yields the configuration error, and a doubly-failed call
surfaces the composite message. -/
theorem claim_C7_witness :
    getAuthHeaders { bearerToken := some "tok", clientId := none, clientSecret := none }
        (Except.error "t") = (.ok "Bearer tok", false) ∧
    (getAuthHeaders { bearerToken := none, clientId := some "id", clientSecret := none }
        (Except.error "t")).1 = .error (.raised "SPOTIFY client credentials not configured") ∧
    spExtractInfo { bearerToken := none, clientId := none, clientSecret := none }
        { tokenResp := .error "t", oembedResp := .ok ⟨500, "oops", .null⟩, apiResp := .error "a" }
        "https://open.spotify.com/track/abc"
      = .error (.raised "Spotify credentials or bearer token are required for full metadata (preview URLs). Fallback oEmbed failed: oEmbed failed: 500 oops") :=
  ⟨(claim_C7 ⟨some "tok", none, none⟩ ⟨.error "t", .error "t", .error "t"⟩ "u").1 rfl,
   (claim_C7 ⟨none, some "id", none⟩ ⟨.error "t", .error "t", .error "t"⟩ "u").2.1 rfl (Or.inr rfl),
   (claim_C7 ⟨none, none, none⟩ ⟨.error "t", .ok ⟨500, "oops", .null⟩, .error "a"⟩
      "https://open.spotify.com/track/abc").2.2 "track" "abc"
      (.raised "SPOTIFY client credentials not configured") "oEmbed failed: 500 oops" rfl rfl rfl⟩

/-- Field description of a successful track mapping: the duration comes
from the `duration_ms` field through `spDurationOf`, the formats are a
single preview entry exactly when the preview url is truthy, and the title
is the `name` field. -/
theorem spTrackInfo_ok_fields (resp : HttpResp) (kvs : List (String × JsonValue)) (info : Info)
    (hstatus : resp.status = 200) (hjson : resp.json = .obj kvs)
    (h : spTrackInfo resp = .ok info) :
    (∃ d, spDurationOf (jGetD (.obj kvs) "duration_ms" (.num 0)) = .ok d ∧
          info.duration = some d) ∧
    info.formats = (if pyTruthy (jGet (.obj kvs) "preview_url") = true then
        [⟨.str "preview", .str "mp3", jGet (.obj kvs) "preview_url"⟩] else []) ∧
    info.title = jGet (.obj kvs) "name" := by
  unfold spTrackInfo at h
  rw [hstatus, hjson] at h
  rw [if_neg (by decide)] at h
  dsimp only at h
  repeat' split at h
  all_goals cases h
  all_goals exact ⟨⟨_, by assumption, rfl⟩, by simp_all, by simp_all⟩

/-- Claim C4: for a vendor track url with a valid bearer token, given a
track resource response carrying `duration_ms` 210000 and a present
(truthy) `preview_url`, every record the vendor client returns has duration
210 and exactly one format entry, with format id `preview` and ext
`mp3`. -/
theorem claim_C4 (env : SpEnv) (oracle : SpOracle) (url id : String)
    (resp : HttpResp) (kvs : List (String × JsonValue)) (info : Info)
    (hbear : pyTruthyOpt env.bearerToken = true)
    (hurl : parseSpotifyUrl url = some ("track", id))
    (hapi : oracle.apiResp = .ok resp)
    (hstatus : resp.status = 200)
    (hjson : resp.json = .obj kvs)
    (hdur : jGetD (.obj kvs) "duration_ms" (.num 0) = .num 210000)
    (hprev : pyTruthy (jGet (.obj kvs) "preview_url") = true)
    (h : spExtractInfo env oracle url = .ok info) :
    info.duration = some 210 ∧
    info.formats = [⟨.str "preview", .str "mp3", jGet (.obj kvs) "preview_url"⟩] := by
  have hAuth : getAuthHeaders env oracle.tokenResp =
      (.ok ("Bearer " ++ env.bearerToken.getD ""), false) := by
    unfold getAuthHeaders
    rw [if_pos hbear]
  simp only [spExtractInfo, hurl, hAuth, hapi] at h
  rw [if_true] at h
  obtain ⟨⟨d, hd1, hd2⟩, hf, _⟩ := spTrackInfo_ok_fields resp kvs info hstatus hjson h
  rw [hdur] at hd1
  have hd3 : d = 210 := by
    have h210 : spDurationOf (.num 210000) = Except.ok 210 := by rfl
    rw [h210] at hd1
    exact (Except.ok.inj hd1).symm
  constructor
  · rw [hd2, hd3]
  · rw [hf, if_pos hprev]

/-- Witness for claim C4 at a concrete track response with
`duration_ms` 210000 and a preview url. -/
theorem claim_C4_witness :
    spExtractInfo ⟨some "tok", none, none⟩
        ⟨.error "t", .error "o",
         .ok ⟨200, "",
           .obj [("name", .str "Song"),
                 ("artists", .arr [.obj [("name", .str "A")]]),
                 ("album", .obj [("images", .arr [.obj [("url", .str "img")]])]),
                 ("duration_ms", .num 210000),
                 ("preview_url", .str "https://p.scdn.co/x")]⟩⟩
        "https://open.spotify.com/track/abc"
      = .ok ⟨.str "Song", .str "img", .str "A", some 210,
             [⟨.str "preview", .str "mp3", .str "https://p.scdn.co/x"⟩]⟩ ∧
    (⟨.str "Song", .str "img", .str "A", some 210,
      [⟨.str "preview", .str "mp3", .str "https://p.scdn.co/x"⟩]⟩ : Info).duration = some 210 ∧
    (⟨.str "Song", .str "img", .str "A", some 210,
      [⟨.str "preview", .str "mp3", .str "https://p.scdn.co/x"⟩]⟩ : Info).formats
      = [⟨.str "preview", .str "mp3", .str "https://p.scdn.co/x"⟩] :=
  ⟨rfl,
   claim_C4 ⟨some "tok", none, none⟩
     ⟨.error "t", .error "o",
      .ok ⟨200, "",
        .obj [("name", .str "Song"),
              ("artists", .arr [.obj [("name", .str "A")]]),
              ("album", .obj [("images", .arr [.obj [("url", .str "img")]])]),
              ("duration_ms", .num 210000),
              ("preview_url", .str "https://p.scdn.co/x")]⟩⟩
     "https://open.spotify.com/track/abc" "abc"
     ⟨200, "",
      .obj [("name", .str "Song"),
            ("artists", .arr [.obj [("name", .str "A")]]),
            ("album", .obj [("images", .arr [.obj [("url", .str "img")]])]),
            ("duration_ms", .num 210000),
            ("preview_url", .str "https://p.scdn.co/x")]⟩
     [("name", .str "Song"),
      ("artists", .arr [.obj [("name", .str "A")]]),
      ("album", .obj [("images", .arr [.obj [("url", .str "img")]])]),
      ("duration_ms", .num 210000),
      ("preview_url", .str "https://p.scdn.co/x")]
     ⟨.str "Song", .str "img", .str "A", some 210,
      [⟨.str "preview", .str "mp3", .str "https://p.scdn.co/x"⟩]⟩
     rfl rfl rfl rfl rfl rfl rfl rfl⟩

/-- Claim C10: for every authenticated track extraction whose track
resource response lacks the `duration_ms` field, the vendor client sets the
duration to 0 rather than leaving it unset. -/
theorem claim_C10 (env : SpEnv) (oracle : SpOracle) (url id : String)
    (resp : HttpResp) (kvs : List (String × JsonValue)) (info : Info)
    (hbear : pyTruthyOpt env.bearerToken = true)
    (hurl : parseSpotifyUrl url = some ("track", id))
    (hapi : oracle.apiResp = .ok resp)
    (hstatus : resp.status = 200)
    (hjson : resp.json = .obj kvs)
    (hmiss : jLookup "duration_ms" kvs = none)
    (h : spExtractInfo env oracle url = .ok info) :
    info.duration = some 0 := by
  have hAuth : getAuthHeaders env oracle.tokenResp =
      (.ok ("Bearer " ++ env.bearerToken.getD ""), false) := by
    unfold getAuthHeaders
    rw [if_pos hbear]
  simp only [spExtractInfo, hurl, hAuth, hapi] at h
  rw [if_true] at h
  obtain ⟨⟨d, hd1, hd2⟩, _, _⟩ := spTrackInfo_ok_fields resp kvs info hstatus hjson h
  have hdef : jGetD (.obj kvs) "duration_ms" (.num 0) = .num 0 := by
    simp [jGetD, hmiss]
  rw [hdef] at hd1
  have h0 : spDurationOf (.num 0) = Except.ok 0 := by rfl
  rw [h0] at hd1
  rw [hd2, (Except.ok.inj hd1).symm]

/-- Witness for claim C10 at a track response whose body is an empty
object (so `duration_ms` is absent). -/
theorem claim_C10_witness :
    spExtractInfo ⟨some "tok", none, none⟩ ⟨.error "t", .error "o", .ok ⟨200, "", .obj []⟩⟩
        "https://open.spotify.com/track/abc"
      = .ok ⟨.null, .null, .null, some 0, []⟩ ∧
    (⟨.null, .null, .null, some 0, []⟩ : Info).duration = some 0 :=
  ⟨rfl,
   claim_C10 ⟨some "tok", none, none⟩ ⟨.error "t", .error "o", .ok ⟨200, "", .obj []⟩⟩
     "https://open.spotify.com/track/abc" "abc" ⟨200, "", .obj []⟩ []
     ⟨.null, .null, .null, some 0, []⟩ rfl rfl rfl rfl rfl rfl rfl⟩

/-- Claim C2: a streamed 200 response of 16384 bytes delivered in two
8192-byte chunks under a Content-Length header of 16384 produces exactly
two downloading callbacks — the second with percentage exactly 100 —
followed by a finished callback with percentage 100, and writes exactly the
16384 streamed bytes to the destination. -/
theorem claim_C2 (c1 c2 : List Nat) (clock : Nat → ℚ)
    (h1 : c1.length = 8192) (h2 : c2.length = 8192) :
    downloadDirect (.response 200 (some "16384") [c1, c2]) clock
      = .ok ([mkDownloadingEv 16384 (clock 0) 8192, mkDownloadingEv 16384 (clock 1) 16384,
              ⟨"finished", 16384, 16384, 100, none⟩], c1 ++ c2) ∧
    (mkDownloadingEv 16384 (clock 1) 16384).percentage = 100 ∧
    (mkDownloadingEv 16384 (clock 1) 16384).status = "downloading" ∧
    (c1 ++ c2).length = 16384 := by
  have hne1 : c1.isEmpty = false := by
    cases c1 with
    | nil => simp at h1
    | cons a t => rfl
  have hne2 : c2.isEmpty = false := by
    cases c2 with
    | nil => simp at h2
    | cons a t => rfl
  have hloop : dlLoop 16384 clock [c1, c2] 0 0 =
      ([mkDownloadingEv 16384 (clock 0) 8192, mkDownloadingEv 16384 (clock 1) 16384],
       16384, c1 ++ (c2 ++ [])) := by
    simp [dlLoop, hne1, hne2, h1, h2]
  refine ⟨?_, by simp only [mkDownloadingEv, pyPercentage]; decide, rfl, by simp [h1, h2]⟩
  simp [downloadDirect, hloop, show pyIntOfString "16384" = Except.ok 16384 from rfl]

/-- Witness for claim C2 at concrete 8192-byte chunks and a constant
clock. -/
theorem claim_C2_witness :
    downloadDirect (.response 200 (some "16384") [List.replicate 8192 7, List.replicate 8192 9])
        (fun _ => 0)
      = .ok ([mkDownloadingEv 16384 0 8192, mkDownloadingEv 16384 0 16384,
              ⟨"finished", 16384, 16384, 100, none⟩],
             List.replicate 8192 7 ++ List.replicate 8192 9) ∧
    (mkDownloadingEv 16384 0 16384).percentage = 100 ∧
    (mkDownloadingEv 16384 0 16384).status = "downloading" ∧
    (List.replicate 8192 7 ++ List.replicate 8192 9).length = 16384 :=
  claim_C2 (List.replicate 8192 7) (List.replicate 8192 9) (fun _ => 0)
    (by rw [List.length_replicate]) (by rw [List.length_replicate])

/-- With a zero total, the chunk loop writes exactly the streamed bytes,
counts them, and reports status downloading with percentage 0 on every
loop event. -/
theorem dlLoop_zero_total (clock : Nat → ℚ) :
    ∀ (chunks : List (List Nat)) (i d : Nat),
      (dlLoop 0 clock chunks i d).2.2 = chunks.flatten ∧
      (dlLoop 0 clock chunks i d).2.1 = d + chunks.flatten.length ∧
      ∀ e ∈ (dlLoop 0 clock chunks i d).1, e.status = "downloading" ∧ e.percentage = 0 := by
  intro chunks
  induction chunks with
  | nil => intro i d; exact ⟨rfl, by simp [dlLoop], by simp [dlLoop]⟩
  | cons c rest ih =>
    intro i d
    by_cases hc : c.isEmpty
    · have hcnil : c = [] := by
        cases c with
        | nil => rfl
        | cons a t => simp at hc
      rw [dlLoop, if_pos hc]
      rcases ih i d with ⟨hb, hd, he⟩
      subst hcnil
      exact ⟨by simp [hb], by simpa using hd, he⟩
    · rw [dlLoop, if_neg hc]
      dsimp only
      rcases ih (i + 1) (d + c.length) with ⟨hb, hd, he⟩
      refine ⟨by simp [hb], ?_, ?_⟩
      · simp only [hd, List.flatten_cons, List.length_append]
        omega
      · intro e he2
        rcases List.mem_cons.mp he2 with hEq | hTail
        · subst hEq
          exact ⟨rfl, by simp [mkDownloadingEv, pyPercentage]⟩
        · exact he e hTail

/-- Claim C8: for a streamed 200 response with no Content-Length header,
every downloading callback reports percentage 0, and the accumulated byte
count of the final finished callback equals the actual stream length, which
is also the number of bytes written to the destination. -/
theorem claim_C8 (chunks : List (List Nat)) (clock : Nat → ℚ)
    (evs : List ProgressEvent) (file : List Nat)
    (h : downloadDirect (.response 200 none chunks) clock = .ok (evs, file)) :
    file = chunks.flatten ∧
    evs.getLast? = some ⟨"finished", file.length, 0, 100, none⟩ ∧
    ∀ e ∈ evs, e.status = "downloading" → e.percentage = 0 := by
  rcases dlLoop_zero_total clock chunks 0 0 with ⟨hb, hd, he⟩
  simp only [downloadDirect] at h
  rw [if_neg (by decide), if_neg (by decide), if_neg (by decide)] at h
  injection h with h2
  cases h2
  refine ⟨hb, ?_, ?_⟩
  · rw [List.getLast?_concat]
    rw [hd, hb]
    simp
  · intro e hme hst
    rcases List.mem_append.mp hme with hIn | hIn
    · exact (he e hIn).2
    · rw [List.mem_singleton] at hIn
      subst hIn
      simp at hst

/-- Witness for claim C8 at a concrete three-chunk stream (one chunk
empty) with no Content-Length header. -/
theorem claim_C8_witness :
    ([1, 2, 3] : List Nat) = [[1, 2], [], [3]].flatten ∧
    [mkDownloadingEv 0 0 2, mkDownloadingEv 0 0 3,
     (⟨"finished", 3, 0, 100, none⟩ : ProgressEvent)].getLast?
      = some ⟨"finished", 3, 0, 100, none⟩ ∧
    ∀ e ∈ [mkDownloadingEv 0 0 2, mkDownloadingEv 0 0 3,
           (⟨"finished", 3, 0, 100, none⟩ : ProgressEvent)],
      e.status = "downloading" → e.percentage = 0 :=
  claim_C8 [[1, 2], [], [3]] (fun _ => 0)
    [mkDownloadingEv 0 0 2, mkDownloadingEv 0 0 3, ⟨"finished", 3, 0, 100, none⟩]
    [1, 2, 3] rfl

/-- Every successful run of the HTML extractor comes from a 200 response
and assembles the record from the JSON-LD stage through the meta fills, the
dedup pass, the duration pattern and the final title fallback. -/
theorem amExtractInfo_ok_shape (fetch : FetchOutcome) (url : String) (info : Info)
    (h : amExtractInfo fetch url = .ok info) :
    ∃ (status : Nat) (text : String) (t0 th0 u0 : JsonValue) (f0 : List FormatEntry),
      fetch = .response status text ∧
      amJsonLdStage text.toList = .ok (t0, th0, u0, f0) ∧
      info = { title := amFinalTitle url (amMetaFill ogTitleLit text.toList t0),
               thumbnail := amMetaFill ogImageLit text.toList th0,
               uploader := amMetaFill authorLit text.toList u0,
               duration := amDurationOf text.toList,
               formats := dedupFormats [] (f0 ++ amDirectEntries text.toList) } := by
  cases fetch with
  | timeout => simp [amExtractInfo] at h
  | requestError e => simp [amExtractInfo] at h
  | response status text =>
    simp only [amExtractInfo] at h
    split at h
    · simp at h
    split at h
    · simp at h
    split at h
    · simp at h
    split at h
    · simp at h
    · rename_i hJ
      exact ⟨status, text, _, _, _, _, rfl, hJ, (Except.ok.inj h).symm⟩

/-- A successful embed fallback returns an empty format list. -/
theorem embedAttempt_ok_formats (o : Except String HttpResp) (i : Info)
    (h : embedAttempt o = .ok i) : i.formats = [] := by
  unfold embedAttempt at h
  repeat' split at h
  all_goals cases h
  all_goals rfl

/-- A successful track mapping has at most one format entry. -/
theorem spTrackInfo_ok_formats_short (resp : HttpResp) (info : Info)
    (h : spTrackInfo resp = .ok info) :
    info.formats = [] ∨ ∃ f, info.formats = [f] := by
  unfold spTrackInfo at h
  repeat' split at h
  all_goals cases h
  all_goals dsimp only
  all_goals first
    | exact Or.inl rfl
    | exact Or.inr ⟨_, rfl⟩

/-- A string built from a nonempty character list is truthy. -/
theorem pyTruthy_str_of_ne (l : List Char) (h : l = [] → False) :
    pyTruthy (.str (String.mk l)) = true := by
  have hne : (String.mk l == "") = false := by
    rw [beq_eq_false_iff_ne]
    intro hcon
    apply h
    have h2 := congrArg String.data hcon
    simpa using h2
  simp [pyTruthy, hne]

/-- The url-derived title fallback is always truthy. -/
theorem amTitleFallback_truthy (url : String) : pyTruthy (amTitleFallback url) = true := by
  unfold amTitleFallback
  split
  · rfl
  · rename_i hne
    apply pyTruthy_str_of_ne
    intro hcon
    rw [hcon] at hne
    simp at hne

/-- Claim C1 (amended): the HTML extractor never returns two format entries
with the same non-null url (the dedup pass guarantees it on every path);
for the vendor client the invariant holds on the track path (and on the
embed fallback), whose format list has at most one entry. -/
theorem claim_C1_amended :
    (∀ (fetch : FetchOutcome) (url : String) (info : Info),
       amExtractInfo fetch url = .ok info → NoDupNonNullUrls info.formats) ∧
    (∀ (env : SpEnv) (oracle : SpOracle) (url id : String) (info : Info),
       parseSpotifyUrl url = some ("track", id) →
       spExtractInfo env oracle url = .ok info → NoDupNonNullUrls info.formats) := by
  constructor
  · intro fetch url info h
    obtain ⟨st, tx, t0, th0, u0, f0, hf, hJ, hinfo⟩ := amExtractInfo_ok_shape fetch url info h
    rw [hinfo]
    exact (dedupFormats_pairwise _ _).imp (fun hne hEq => absurd hEq hne)
  · intro env oracle url id info hurl h
    simp only [spExtractInfo, hurl] at h
    split at h
    · split at h
      · rename_i i hemb
        cases h
        rw [embedAttempt_ok_formats _ _ hemb]
        exact List.Pairwise.nil
      · simp at h
    · rw [if_true] at h
      split at h
      · simp at h
      · rcases spTrackInfo_ok_formats_short _ _ h with hf | ⟨f, hf⟩ <;> rw [hf]
        · exact List.Pairwise.nil
        · exact List.pairwise_singleton _ _

/-- Counterexample for claim C1: an album response whose two tracks share
one preview url produces two format entries with the same non-null url. -/
theorem claim_C1_counterexample :
    spExtractInfo ⟨some "tok", none, none⟩
        ⟨.error "t", .error "o",
         .ok ⟨200, "", .obj [("tracks", .obj [("items",
           .arr [.obj [("id", .str "t1"), ("preview_url", .str "P")],
                 .obj [("id", .str "t2"), ("preview_url", .str "P")]])])]⟩⟩
        "https://open.spotify.com/album/xyz"
      = .ok ⟨.null, .null, .null, none,
             [⟨.str "t1", .str "preview", .str "P"⟩, ⟨.str "t2", .str "preview", .str "P"⟩]⟩ ∧
    ¬ NoDupNonNullUrls
        [⟨.str "t1", .str "preview", .str "P"⟩, ⟨.str "t2", .str "preview", .str "P"⟩] := by
  refine ⟨rfl, ?_⟩
  intro hnd
  have h2 := (List.pairwise_cons.mp hnd).1 ⟨.str "t2", .str "preview", .str "P"⟩ (by simp) rfl
  simp at h2

/-- Witness for claim C1 (amended) at a formats-free HTML page and an
authenticated track extraction. -/
theorem claim_C1_witness :
    NoDupNonNullUrls ((⟨.str "b", .null, .null, none, []⟩ : Info).formats) ∧
    NoDupNonNullUrls ((⟨.null, .null, .null, some 0, []⟩ : Info).formats) :=
  ⟨claim_C1_amended.1 (.response 200 "<p>x</p>") "https://audiomack.com/a/b" _ rfl,
   claim_C1_amended.2 ⟨some "tok", none, none⟩ ⟨.error "t", .error "o", .ok ⟨200, "", .obj []⟩⟩
     "https://open.spotify.com/track/abc" "abc" _ rfl rfl⟩

/-- Claim C3 (amended): after every successful HTML extraction the title is
truthy — never unset or empty — because the final sanity check falls back
to the url-path segment or the fixed placeholder.  (The vendor client has
no such fallback; see the counterexample.) -/
theorem claim_C3_amended (fetch : FetchOutcome) (url : String) (info : Info)
    (h : amExtractInfo fetch url = .ok info) : pyTruthy info.title = true := by
  obtain ⟨st, tx, t0, th0, u0, f0, hf, hJ, hinfo⟩ := amExtractInfo_ok_shape fetch url info h
  rw [hinfo]
  show pyTruthy (amFinalTitle url _) = true
  unfold amFinalTitle
  split
  · assumption
  · exact amTitleFallback_truthy url

/-- Counterexample for claim C3: a successful vendor track extraction from
a response without a `name` field returns an unset (null, falsy) title —
no url-derived fallback is applied. -/
theorem claim_C3_counterexample :
    spExtractInfo ⟨some "tok", none, none⟩ ⟨.error "t", .error "o", .ok ⟨200, "", .obj []⟩⟩
        "https://open.spotify.com/track/abc"
      = .ok ⟨.null, .null, .null, some 0, []⟩ ∧
    pyTruthy ((⟨.null, .null, .null, some 0, []⟩ : Info).title) = false :=
  ⟨rfl, rfl⟩

/-- Witness for claim C3 (amended) at a page with no title source, whose
title comes from the url path segment. -/
theorem claim_C3_witness :
    pyTruthy ((⟨.str "b", .null, .null, none, []⟩ : Info).title) = true :=
  claim_C3_amended (.response 200 "<p>x</p>") "https://audiomack.com/a/b" _ rfl

/-- Claim C5 (amended): the HTML extractor sets the duration to 207 when
the leftmost match of the duration pattern in the page is the
three-minute-27-second fragment; when the pattern does not match at all the
duration is left unset and extraction still succeeds. -/
theorem claim_C5_amended (text url : String) (info : Info)
    (h : amExtractInfo (.response 200 text) url = .ok info) :
    (findDuration text.toList = some (3, 27) → info.duration = some 207) ∧
    (findDuration text.toList = none → info.duration = none) := by
  obtain ⟨st, tx, t0, th0, u0, f0, hf, hJ, hinfo⟩ := amExtractInfo_ok_shape _ url info h
  injection hf with h1 h2
  subst h2
  rw [hinfo]
  constructor <;> intro hd
  · show amDurationOf text.toList = some 207
    unfold amDurationOf
    rw [hd]
    norm_num
  · show amDurationOf text.toList = none
    unfold amDurationOf
    rw [hd]

/-- Counterexample for claim C5: a page containing the PT3M27S fragment
preceded by an earlier match of the duration pattern extracts the earlier
duration (62), not 207. -/
theorem claim_C5_counterexample :
    chContains "\"duration\":\"PT3M27S\"".toList
      "\"duration\":\"PT1M2S\" \"duration\":\"PT3M27S\"".toList = true ∧
    amExtractInfo (.response 200 "\"duration\":\"PT1M2S\" \"duration\":\"PT3M27S\"")
        "https://audiomack.com/a/b"
      = .ok ⟨.str "b", .null, .null, some 62, []⟩ :=
  ⟨rfl, rfl⟩

/-- Witness for claim C5 (amended) at a page whose only duration fragment
is PT3M27S, and at a page with no match. -/
theorem claim_C5_witness :
    ((⟨.str "b", .null, .null, some 207, []⟩ : Info).duration = some 207) ∧
    ((⟨.str "b", .null, .null, none, []⟩ : Info).duration = none) :=
  ⟨(claim_C5_amended "z \"duration\":\"PT3M27S\" z" "https://audiomack.com/a/b" _ rfl).1 rfl,
   (claim_C5_amended "<p>x</p>" "https://audiomack.com/a/b" _ rfl).2 rfl⟩

/-- Claim C9 (amended): when the structured-data block parses successfully
to a truthy value that is not an object, the HTML extractor raises an
unhandled `AttributeError` at the first `.get`; a falsy non-object result
(such as an empty array) is instead treated as absent and extraction
continues. -/
theorem claim_C9_amended (text url : String) (j : JsonValue)
    (hfind : findJsonLd text.toList = some j)
    (htruthy : pyTruthy j = true)
    (hobj : isObj j = false) :
    amExtractInfo (.response 200 text) url = .error .attributeError := by
  have hstage : amJsonLdStage text.toList = .error .attributeError := by
    unfold amJsonLdStage
    rw [hfind]
    dsimp only
    rw [if_pos htruthy]
    cases j <;> first | rfl | (simp [isObj] at hobj)
  simp only [amExtractInfo]
  rw [if_neg (by decide), if_neg (by decide), if_neg (by decide), hstage]

/-- Counterexample for claim C9: an empty JSON array parses successfully
and is not an object, yet extraction treats the block as absent and
succeeds. -/
theorem claim_C9_counterexample :
    findJsonLd "<script type=\"application/ld+json\">[]</script>".toList = some (.arr []) ∧
    isObj (.arr []) = false ∧
    amExtractInfo (.response 200 "<script type=\"application/ld+json\">[]</script>")
        "https://audiomack.com/a/b"
      = .ok ⟨.str "b", .null, .null, none, []⟩ :=
  ⟨rfl, rfl, rfl⟩

/-- Witness for claim C9 (amended) at a page whose structured-data block is
the nonempty array, on which extraction raises. -/
theorem claim_C9_witness :
    findJsonLd "<script type=\"application/ld+json\">[1]</script>".toList = some (.arr [.num 1]) ∧
    amExtractInfo (.response 200 "<script type=\"application/ld+json\">[1]</script>") "u"
      = .error .attributeError :=
  ⟨rfl, claim_C9_amended "<script type=\"application/ld+json\">[1]</script>" "u"
    (.arr [.num 1]) rfl rfl rfl⟩

end MediaDL
